import Mathlib

/-!
# Vote integrity and result aggregation core — verification

Shallow embedding of the vote-integrity and result-aggregation core of the
Online Poll System backend (`polls/models.py`, `polls/serializers.py`,
`polls/signals.py`), with theorems settling the specification's claims.

Conventions of the embedding:
* Database tables become lists of records; primary keys are `Nat`.
* Timestamps are `Nat` (only ordering comparisons matter).
* Python strings are `String`; `str.strip`/`str.lower` are modelled on the
  underlying character list.
* Fallible operations return `Except`.
* SQL `ORDER BY vote_count DESC` leaves the relative order of equal-count
  rows to the database; that freedom is modelled by an explicit tie-break
  key parameter (see `rowRel` below).
-/

/-- A poll row (`polls.models.Poll`), restricted to the fields the core
logic reads: primary key, `is_active`, `allow_multiple_votes`, optional
`expires_at`. -/
structure Poll where
  id : Nat
  isActive : Bool
  allowMultipleVotes : Bool
  expiresAt : Option Nat
deriving DecidableEq

/-- An option row (`polls.models.PollOption`): primary key, owning poll,
text, display order. -/
structure PollOption where
  id : Nat
  pollId : Nat
  text : String
  order : Nat
deriving DecidableEq

/-- A vote row (`polls.models.Vote`): optional user (anonymous when `none`),
target option, originating IP address. -/
structure Vote where
  user : Option Nat
  optionId : Nat
  ipAddress : String
deriving DecidableEq

/-- The persistent store: the poll, option and vote tables. -/
structure Store where
  polls : List Poll
  options : List PollOption
  votes : List Vote
deriving DecidableEq

/-- `Poll.is_expired` (models.py 49-53): `timezone.now() > self.expires_at`
when an expiry is set, `False` otherwise. -/
def Poll.isExpired (p : Poll) (now : Nat) : Bool :=
  match p.expiresAt with
  | some e => e < now
  | none => false

/-- Primary-key lookup of an option row. -/
def findOption (s : Store) (oid : Nat) : Option PollOption :=
  s.options.find? (fun o => o.id == oid)

/-- Primary-key lookup of a poll row. -/
def findPoll (s : Store) (pid : Nat) : Option Poll :=
  s.polls.find? (fun p => p.id == pid)

/-- The poll a vote's option belongs to (`vote.option.poll`). -/
def pollOfOption (s : Store) (oid : Nat) : Option Poll :=
  (findOption s oid).bind (fun o => findPoll s o.pollId)

/-- Does vote `w` lie in poll `pid`? (the ORM lookup `option__poll=poll`). -/
def voteInPoll (s : Store) (w : Vote) (pid : Nat) : Bool :=
  match findOption s w.optionId with
  | some o => o.pollId == pid
  | none => false

/-- `Vote.objects.filter(user=u, option__poll=p).exists()`. -/
def hasUserVote (s : Store) (u : Nat) (pid : Nat) : Bool :=
  s.votes.any (fun w => w.user == some u && voteInPoll s w pid)

/-- `Vote.objects.filter(ip_address=ip, option__poll=p).exists()`. -/
def hasIpVote (s : Store) (ip : String) (pid : Nat) : Bool :=
  s.votes.any (fun w => w.ipAddress == ip && voteInPoll s w pid)

/-- `Vote.clean` (models.py 163-183): the duplicate-vote validation run at
model level.  Only the duplicate-identity check (when a user is present) and
the duplicate-address check appear here, and only when the owning poll
disallows multiple votes; the poll's active flag and expiry are not
consulted.  The source's `exclude(pk=self.pk)` is a no-op for a new,
unsaved vote, so it is not modelled. -/
def voteClean (s : Store) (v : Vote) : Except String Unit :=
  match pollOfOption s v.optionId with
  | none => Except.error "vote option has no poll"
  | some p =>
    if p.allowMultipleVotes then Except.ok ()
    else
      match v.user with
      | some u =>
        if hasUserVote s u p.id then
          Except.error "User has already voted in this poll."
        else if hasIpVote s v.ipAddress p.id then
          Except.error "A vote from this IP address already exists for this poll."
        else Except.ok ()
      | none =>
        if hasIpVote s v.ipAddress p.id then
          Except.error "A vote from this IP address already exists for this poll."
        else Except.ok ()

/-- `Vote.save` (models.py 185-188): run `full_clean` (which invokes
`Vote.clean`) and insert the row on success. -/
def voteSave (s : Store) (v : Vote) : Except String Store :=
  match voteClean s v with
  | Except.ok _ => Except.ok { s with votes := s.votes ++ [v] }
  | Except.error e => Except.error e

/-- One recorder call: persist the vote when `Vote.save` accepts it,
otherwise leave the store unchanged (the `ValidationError` is surfaced to
the caller and nothing is written). -/
def applyVoteOp (s : Store) (v : Vote) : Store :=
  match voteSave s v with
  | Except.ok t => t
  | Except.error _ => s

/-- Spec §3 Vote invariant: for every poll that disallows multiple votes, at
most one vote per (identity, poll) pair for each present identity, and at
most one vote per (network address, poll) pair. -/
def DupFree (s : Store) : Prop :=
  ∀ p ∈ s.polls, p.allowMultipleVotes = false →
    (∀ u : Nat, s.votes.countP (fun w => w.user == some u && voteInPoll s w p.id) ≤ 1) ∧
    (∀ ip : String, s.votes.countP (fun w => w.ipAddress == ip && voteInPoll s w p.id) ≤ 1)

theorem voteInPoll_none {s : Store} {w : Vote} {pid : Nat}
    (h : findOption s w.optionId = none) : voteInPoll s w pid = false := by
  unfold voteInPoll
  rw [h]

theorem voteInPoll_some {s : Store} {w : Vote} {pid : Nat} {o : PollOption}
    (h : findOption s w.optionId = some o) : voteInPoll s w pid = (o.pollId == pid) := by
  unfold voteInPoll
  rw [h]

theorem find_poll_of_mem {l : List Poll} {p : Poll}
    (hids : (l.map Poll.id).Nodup) (hp : p ∈ l) :
    l.find? (fun q => q.id == p.id) = some p := by
  induction l with
  | nil => simp at hp
  | cons q t ih =>
    simp only [List.map_cons, List.nodup_cons] at hids
    rcases List.mem_cons.mp hp with hq | ht
    · subst hq
      exact List.find?_cons_of_pos _ (by simp)
    · have hne : (q.id == p.id) = false := by
        refine beq_eq_false_iff_ne.mpr ?_
        intro hqp
        exact hids.1 (hqp ▸ List.mem_map_of_mem Poll.id ht)
      simp only [List.find?_cons, hne]
      exact ih hids.2 ht

theorem poll_eq_of_voteInPoll {s : Store} {p p' : Poll} {v : Vote}
    (hids : (s.polls.map Poll.id).Nodup) (hp : p ∈ s.polls)
    (hpo : pollOfOption s v.optionId = some p') (hvp : voteInPoll s v p.id = true) :
    p' = p := by
  cases hfo : findOption s v.optionId with
  | none => rw [voteInPoll_none hfo] at hvp; cases hvp
  | some o =>
    rw [voteInPoll_some hfo] at hvp
    have hopid : o.pollId = p.id := by simpa using hvp
    unfold pollOfOption at hpo
    rw [hfo] at hpo
    have hpo' : findPoll s o.pollId = some p' := hpo
    rw [hopid] at hpo'
    unfold findPoll at hpo'
    rw [find_poll_of_mem hids hp] at hpo'
    exact (Option.some_inj.mp hpo').symm

theorem voteClean_ok_no_dup {s : Store} {v : Vote} {p : Poll}
    (hpo : pollOfOption s v.optionId = some p)
    (hmult : p.allowMultipleVotes = false)
    (hok : voteClean s v = Except.ok ()) :
    (∀ u, v.user = some u → hasUserVote s u p.id = false) ∧
      hasIpVote s v.ipAddress p.id = false := by
  unfold voteClean at hok
  rw [hpo] at hok
  simp only [hmult, Bool.false_eq_true, if_false] at hok
  cases hu : v.user with
  | some u0 =>
    rw [hu] at hok
    cases h1 : hasUserVote s u0 p.id with
    | true => simp [h1] at hok
    | false =>
      cases h2 : hasIpVote s v.ipAddress p.id with
      | true => simp [h1, h2] at hok
      | false =>
        refine ⟨fun u hu' => ?_, rfl⟩
        cases hu'
        exact h1
  | none =>
    rw [hu] at hok
    cases h2 : hasIpVote s v.ipAddress p.id with
    | true => simp [h2] at hok
    | false =>
      refine ⟨fun u hu' => ?_, rfl⟩
      cases hu'

theorem countP_eq_zero_of_any_eq_false {l : List Vote} {p : Vote → Bool}
    (h : l.any p = false) : l.countP p = 0 :=
  List.countP_eq_zero.mpr (by
    intro w hw
    exact (List.any_eq_false.mp h) w hw)

theorem dupFree_applyVoteOp (s : Store) (v : Vote)
    (hids : (s.polls.map Poll.id).Nodup) (hs : DupFree s) :
    DupFree (applyVoteOp s v) := by
  cases hclean : voteClean s v with
  | error e =>
    have happ : applyVoteOp s v = s := by
      unfold applyVoteOp voteSave
      rw [hclean]
    rw [happ]
    exact hs
  | ok u =>
    cases u
    have happ : applyVoteOp s v = { s with votes := s.votes ++ [v] } := by
      unfold applyVoteOp voteSave
      rw [hclean]
    rw [happ]
    intro p hp hmult
    have hp' : p ∈ s.polls := hp
    have hsp := hs p hp' hmult
    constructor
    · intro u'
      show List.countP (fun w => w.user == some u' && voteInPoll s w p.id) (s.votes ++ [v]) ≤ 1
      rw [List.countP_append]
      by_cases hpred : (v.user == some u' && voteInPoll s v p.id) = true
      · have hpred' := hpred
        simp only [Bool.and_eq_true, beq_iff_eq] at hpred'
        obtain ⟨hvu, hvp⟩ := hpred'
        cases hpo : pollOfOption s v.optionId with
        | none =>
          unfold voteClean at hclean
          rw [hpo] at hclean
          cases hclean
        | some p'' =>
          have hpp : p'' = p := poll_eq_of_voteInPoll hids hp' hpo hvp
          subst hpp
          obtain ⟨hnu, _⟩ := voteClean_ok_no_dup hpo hmult hclean
          have h0 : s.votes.countP (fun w => w.user == some u' && voteInPoll s w p''.id) = 0 :=
            countP_eq_zero_of_any_eq_false (hnu u' hvu)
          rw [h0]
          simp [List.countP_cons, hpred]
      · have h1 : List.countP (fun w => w.user == some u' && voteInPoll s w p.id) [v] = 0 := by
          simp [List.countP_cons, hpred]
        rw [h1]
        have := hsp.1 u'
        omega
    · intro ip'
      show List.countP (fun w => w.ipAddress == ip' && voteInPoll s w p.id) (s.votes ++ [v]) ≤ 1
      rw [List.countP_append]
      by_cases hpred : (v.ipAddress == ip' && voteInPoll s v p.id) = true
      · have hpred' := hpred
        simp only [Bool.and_eq_true, beq_iff_eq] at hpred'
        obtain ⟨hvip, hvp⟩ := hpred'
        cases hpo : pollOfOption s v.optionId with
        | none =>
          unfold voteClean at hclean
          rw [hpo] at hclean
          cases hclean
        | some p'' =>
          have hpp : p'' = p := poll_eq_of_voteInPoll hids hp' hpo hvp
          subst hpp
          obtain ⟨_, hni⟩ := voteClean_ok_no_dup hpo hmult hclean
          rw [hvip] at hni
          have h0 : s.votes.countP (fun w => w.ipAddress == ip' && voteInPoll s w p''.id) = 0 :=
            countP_eq_zero_of_any_eq_false hni
          rw [h0]
          simp [List.countP_cons, hpred]
      · have h1 : List.countP (fun w => w.ipAddress == ip' && voteInPoll s w p.id) [v] = 0 := by
          simp [List.countP_cons, hpred]
        rw [h1]
        have := hsp.2 ip'
        omega

theorem applyVoteOp_polls (s : Store) (v : Vote) :
    (applyVoteOp s v).polls = s.polls := by
  unfold applyVoteOp voteSave
  cases voteClean s v <;> rfl

theorem dupFree_of_no_votes (s : Store) (h : s.votes = []) : DupFree s := by
  intro p hp hm
  constructor <;> intro x <;> rw [h] <;> simp

/-- **C1.** For every poll with multiple votes disallowed, after any sequence
of vote-recording operations in which accepted votes are persisted via the
recorder (`Vote.save`, which re-runs validation), the store keeps at most one
vote per (identity, poll) pair for every present identity and at most one
vote per (network address, poll) pair. -/
theorem vote_dup_invariant (s : Store) (ops : List Vote)
    (hids : (s.polls.map Poll.id).Nodup) (hs : DupFree s) :
    DupFree (ops.foldl applyVoteOp s) := by
  induction ops generalizing s with
  | nil => exact hs
  | cons v t ih =>
    rw [List.foldl_cons]
    have hids' : ((applyVoteOp s v).polls.map Poll.id).Nodup := by
      rw [applyVoteOp_polls]
      exact hids
    exact ih (applyVoteOp s v) hids' (dupFree_applyVoteOp s v hids hs)

/-- Concrete store for the C1 witness: one single-vote poll with two
options and no votes yet. -/
def c1Store : Store :=
  { polls := [{ id := 1, isActive := true, allowMultipleVotes := false, expiresAt := none }],
    options := [{ id := 1, pollId := 1, text := "A", order := 1 },
                { id := 2, pollId := 1, text := "B", order := 2 }],
    votes := [] }

theorem vote_dup_invariant_witness :
    DupFree ([⟨none, 1, "10.0.0.1"⟩, ⟨none, 2, "10.0.0.1"⟩, ⟨some 7, 1, "10.0.0.2"⟩,
        ⟨some 7, 2, "10.0.0.3"⟩].foldl applyVoteOp c1Store) :=
  vote_dup_invariant c1Store _ (by decide) (dupFree_of_no_votes c1Store rfl)

/-- **C10.** Persistence-time re-validation (`Vote.save` → `full_clean` →
`Vote.clean`) re-runs only the duplicate-identity and duplicate-address
checks for polls disallowing multiple votes; it does not re-check the poll's
active flag or expiry, so a vote on an inactive or expired poll that carries
no duplicate identity/address is accepted at the model layer. -/
theorem voteSave_ignores_poll_state (s : Store) (v : Vote) (p : Poll) (now : Nat)
    (hpo : pollOfOption s v.optionId = some p)
    (hstate : p.isActive = false ∨ p.isExpired now = true)
    (hu : ∀ u, v.user = some u → hasUserVote s u p.id = false)
    (hip : hasIpVote s v.ipAddress p.id = false) :
    voteSave s v = Except.ok { s with votes := s.votes ++ [v] } := by
  have hclean : voteClean s v = Except.ok () := by
    unfold voteClean
    rw [hpo]
    cases hm : p.allowMultipleVotes with
    | true => simp [hm]
    | false =>
      cases huser : v.user with
      | some u0 => simp [hm, huser, hu u0 huser, hip]
      | none => simp [hm, huser, hip]
  unfold voteSave
  rw [hclean]

/-- Concrete data for the C10 witness: an inactive single-vote poll with no
votes recorded yet. -/
def c10Store : Store :=
  { polls := [{ id := 3, isActive := false, allowMultipleVotes := false, expiresAt := none }],
    options := [{ id := 30, pollId := 3, text := "Yes", order := 1 }],
    votes := [] }

theorem voteSave_ignores_poll_state_witness :
    voteSave c10Store ⟨none, 30, "10.0.0.9"⟩ =
      Except.ok { c10Store with votes := c10Store.votes ++ [⟨none, 30, "10.0.0.9"⟩] } :=
  voteSave_ignores_poll_state c10Store ⟨none, 30, "10.0.0.9"⟩
    { id := 3, isActive := false, allowMultipleVotes := false, expiresAt := none } 0
    (by decide) (Or.inl rfl) (fun u h => by cases h) (by decide)

/-- Phase of an in-flight `Vote.save` call: `full_clean` not yet run, run and
passed, or finished (`true` = row inserted, `false` = rejected). -/
inductive SavePhase
  | start
  | checked
  | done (accepted : Bool)
deriving DecidableEq

/-- An in-flight `Vote.save` call: the vote being saved and how far the call
has progressed. -/
structure SaveProc where
  vote : Vote
  phase : SavePhase
deriving DecidableEq

/-- One atomic step of an in-flight `Vote.save`.  The source runs
`self.full_clean()` and `super().save(...)` as two separate statements with
no surrounding transaction or lock, and the Vote table carries indexes but
no uniqueness constraint, so the duplicate check and the insert are separate
atomic actions against the shared store. -/
def stepSave (s : Store) (pr : SaveProc) : Store × SaveProc :=
  match pr.phase with
  | SavePhase.start =>
    match voteClean s pr.vote with
    | Except.ok _ => (s, { pr with phase := SavePhase.checked })
    | Except.error _ => (s, { pr with phase := SavePhase.done false })
  | SavePhase.checked =>
    ({ s with votes := s.votes ++ [pr.vote] }, { pr with phase := SavePhase.done true })
  | SavePhase.done _ => (s, pr)

/-- Run a schedule (`false` = step the first in-flight save, `true` = step
the second) over a store and two concurrent `Vote.save` calls. -/
def runSched : List Bool → Store × SaveProc × SaveProc → Store × SaveProc × SaveProc
  | [], st => st
  | false :: rest, (s, p1, p2) =>
    let st := stepSave s p1
    runSched rest (st.1, st.2, p2)
  | true :: rest, (s, p1, p2) =>
    let st := stepSave s p2
    runSched rest (st.1, p1, st.2)

/-- Single-vote poll used for the C2 refutation. -/
def c2Poll : Poll :=
  { id := 1, isActive := true, allowMultipleVotes := false, expiresAt := none }

/-- Store for the C2 refutation: one single-vote poll, one option, no votes. -/
def c2Store : Store :=
  { polls := [c2Poll],
    options := [{ id := 1, pollId := 1, text := "A", order := 1 }],
    votes := [] }

/-- Final state after the interleaving check₁, check₂, insert₁, insert₂ of
two identical anonymous votes from the same address. -/
def c2Final : Store × SaveProc × SaveProc :=
  runSched [false, true, false, true]
    (c2Store, ⟨⟨none, 1, "10.0.0.1"⟩, SavePhase.start⟩, ⟨⟨none, 1, "10.0.0.1"⟩, SavePhase.start⟩)

/-- **C2.** Refutation at a concrete schedule: the claim says that of N
concurrent vote attempts from the same address on a single-vote poll exactly
one succeeds, but `Vote.save` runs its duplicate check and its insert as two
non-atomic steps with no storage uniqueness constraint, so under the
interleaving check₁-check₂-insert₁-insert₂ both saves succeed, two votes
from the address persist, and the duplicate-free invariant is violated. -/
theorem concurrent_saves_both_succeed :
    c2Final.2.1.phase = SavePhase.done true ∧ c2Final.2.2.phase = SavePhase.done true ∧
      c2Final.1.votes.countP
        (fun w => w.ipAddress == "10.0.0.1" && voteInPoll c2Final.1 w c2Poll.id) = 2 ∧
      ¬ DupFree c2Final.1 := by
  refine ⟨by decide, by decide, by decide, ?_⟩
  intro h
  have hp : c2Poll ∈ c2Final.1.polls := by decide
  have hle := (h c2Poll hp (by decide)).2 "10.0.0.1"
  have hcount : c2Final.1.votes.countP
      (fun w => w.ipAddress == "10.0.0.1" && voteInPoll c2Final.1 w c2Poll.id) = 2 := by decide
  omega

deriving instance DecidableEq for Except

/-- Rejection reasons of the vote-validation pipeline (spec §4.1 taxonomy). -/
inductive VoteReject
  | pollInactive
  | pollExpired
  | optionNotFound
  | duplicateIdentityVote
  | duplicateAddressVote
deriving DecidableEq

/-- `VoteSerializer.validate_option` (serializers.py 132-142): field-level
checks on the resolved option — owning poll active, then poll not expired.
The poll is reached through the option's foreign key; a dangling key is
unreachable under referential integrity and is reported as
option-not-found. -/
def validate_option (s : Store) (o : PollOption) (now : Nat) : Except VoteReject Unit :=
  match findPoll s o.pollId with
  | none => Except.error VoteReject.optionNotFound
  | some p =>
    if !p.isActive then Except.error VoteReject.pollInactive
    else if p.isExpired now then Except.error VoteReject.pollExpired
    else Except.ok ()

/-- `VoteSerializer.validate` (serializers.py 144-166): object-level
duplicate checks for single-vote polls — same identity first (when
present), then same source address. -/
def serializer_validate (s : Store) (o : PollOption) (idy : Option Nat) (ip : String) :
    Except VoteReject Unit :=
  match findPoll s o.pollId with
  | none => Except.ok ()
  | some p =>
    if !p.allowMultipleVotes then
      match idy with
      | some u =>
        if hasUserVote s u p.id then Except.error VoteReject.duplicateIdentityVote
        else if hasIpVote s ip p.id then Except.error VoteReject.duplicateAddressVote
        else Except.ok ()
      | none =>
        if hasIpVote s ip p.id then Except.error VoteReject.duplicateAddressVote
        else Except.ok ()
    else Except.ok ()

/-- The full vote-validation pipeline of the request layer
(`VoteSerializer`): DRF resolves the `option` primary key first
(`PrimaryKeyRelatedField`, failing with a does-not-exist error when the id
matches no option row), then runs the field validator `validate_option`,
then the object-level `validate`. -/
def voteValidate (s : Store) (optId : Nat) (idy : Option Nat) (ip : String) (now : Nat) :
    Except VoteReject Unit :=
  match findOption s optId with
  | none => Except.error VoteReject.optionNotFound
  | some o =>
    match validate_option s o now with
    | Except.error e => Except.error e
    | Except.ok _ => serializer_validate s o idy ip

/-- The check order asserted by the claim (spec §4.1), with `pollState`
passed separately as in the spec's
`validate(pollState, optionId, identity, sourceAddress)`: (1) poll active,
(2) poll not expired, (3) option belongs to the poll, (4) duplicate
identity then duplicate address. -/
def specOrderValidate (s : Store) (p : Poll) (optId : Nat) (idy : Option Nat)
    (ip : String) (now : Nat) : Except VoteReject Unit :=
  if !p.isActive then Except.error VoteReject.pollInactive
  else if p.isExpired now then Except.error VoteReject.pollExpired
  else
    match findOption s optId with
    | none => Except.error VoteReject.optionNotFound
    | some o =>
      if o.pollId != p.id then Except.error VoteReject.optionNotFound
      else if !p.allowMultipleVotes then
        match idy with
        | some u =>
          if hasUserVote s u p.id then Except.error VoteReject.duplicateIdentityVote
          else if hasIpVote s ip p.id then Except.error VoteReject.duplicateAddressVote
          else Except.ok ()
        | none =>
          if hasIpVote s ip p.id then Except.error VoteReject.duplicateAddressVote
          else Except.ok ()
      else Except.ok ()

/-- Store refuting the claimed check order: a single inactive poll and no
option rows. -/
def c3Store : Store :=
  { polls := [{ id := 1, isActive := false, allowMultipleVotes := false, expiresAt := none }],
    options := [],
    votes := [] }

/-- **C3 counterexample.** The code resolves the option before any
poll-state check: for a request naming a nonexistent option while the poll
state is inactive, the code reports option-not-found, whereas the claimed
order (active first, option membership only third) reports poll-inactive.
Validation therefore does not apply its checks in the claimed order. -/
theorem voteValidate_order_counterexample :
    voteValidate c3Store 5 none "10.0.0.1" 0 = Except.error VoteReject.optionNotFound ∧
      specOrderValidate c3Store
        { id := 1, isActive := false, allowMultipleVotes := false, expiresAt := none }
        5 none "10.0.0.1" 0 = Except.error VoteReject.pollInactive ∧
      VoteReject.optionNotFound ≠ VoteReject.pollInactive := by
  refine ⟨by decide, by decide, by decide⟩

/-- The claimed check order amended per the counterexample: option
resolution runs first (the poll is reached only through the option's
foreign key), then poll active, poll expired, duplicate identity (when an
identity is present), duplicate address. -/
def amendedOrderValidate (s : Store) (optId : Nat) (idy : Option Nat) (ip : String)
    (now : Nat) : Except VoteReject Unit :=
  match findOption s optId with
  | none => Except.error VoteReject.optionNotFound
  | some o =>
    match findPoll s o.pollId with
    | none => Except.error VoteReject.optionNotFound
    | some p =>
      if !p.isActive then Except.error VoteReject.pollInactive
      else if p.isExpired now then Except.error VoteReject.pollExpired
      else if !p.allowMultipleVotes then
        match idy with
        | some u =>
          if hasUserVote s u p.id then Except.error VoteReject.duplicateIdentityVote
          else if hasIpVote s ip p.id then Except.error VoteReject.duplicateAddressVote
          else Except.ok ()
        | none =>
          if hasIpVote s ip p.id then Except.error VoteReject.duplicateAddressVote
          else Except.ok ()
      else Except.ok ()

/-- **C3 (amended).** For every vote request, validation short-circuits in
the order: option resolution (else option-not-found), poll active (else
poll-inactive), poll not expired (else poll-expired), and — when the poll
disallows multiple votes — no prior vote by the same identity when one is
present (else duplicate-identity), then none from the same source address
(else duplicate-address), returning the reason of the first failing
check. -/
theorem voteValidate_check_order (s : Store) (optId : Nat) (idy : Option Nat)
    (ip : String) (now : Nat) :
    voteValidate s optId idy ip now = amendedOrderValidate s optId idy ip now := by
  cases hfo : findOption s optId with
  | none =>
    unfold voteValidate amendedOrderValidate
    rw [hfo]
  | some o =>
    unfold voteValidate amendedOrderValidate validate_option serializer_validate
    rw [hfo]
    cases hfp : findPoll s o.pollId with
    | none => simp [hfp]
    | some p =>
      cases hact : p.isActive with
      | false => simp [hfp, hact]
      | true =>
        cases hexp : p.isExpired now with
        | true => simp [hfp, hact, hexp]
        | false => simp [hfp, hact, hexp]

/-- Rounding of a rational to the nearest integer with ties to even — the
semantics of Python's built-in `round`. -/
def roundHalfEven (q : ℚ) : ℤ :=
  if q - ⌊q⌋ < 1/2 then ⌊q⌋
  else if 1/2 < q - ⌊q⌋ then ⌊q⌋ + 1
  else if ⌊q⌋ % 2 = 0 then ⌊q⌋ else ⌊q⌋ + 1

/-- Python's `round(x, 2)`, on exact rationals. -/
def round2 (q : ℚ) : ℚ := (roundHalfEven (q * 100) : ℚ) / 100

theorem abs_roundHalfEven_sub_le (q : ℚ) : |(roundHalfEven q : ℚ) - q| ≤ 1/2 := by
  have h1 : (⌊q⌋ : ℚ) ≤ q := Int.floor_le q
  have h2 : q < ⌊q⌋ + 1 := Int.lt_floor_add_one q
  unfold roundHalfEven
  split_ifs with ha hb hc
  · rw [abs_sub_comm, abs_of_nonneg (by linarith)]
    linarith
  · push_cast
    rw [abs_of_nonneg (by push_cast at h2 ⊢; linarith)]
    push_cast at hb ⊢
    linarith
  · have heq : q - ⌊q⌋ = 1/2 := le_antisymm (not_lt.mp hb) (not_lt.mp ha)
    rw [abs_sub_comm, abs_of_nonneg (by linarith)]
    linarith
  · have heq : q - ⌊q⌋ = 1/2 := le_antisymm (not_lt.mp hb) (not_lt.mp ha)
    push_cast
    rw [abs_of_nonneg (by linarith)]
    linarith

theorem abs_round2_sub_le (q : ℚ) : |round2 q - q| ≤ 1/200 := by
  unfold round2
  have h := abs_roundHalfEven_sub_le (q * 100)
  have h100 : (0:ℚ) < 100 := by norm_num
  have hrw : (roundHalfEven (q * 100) : ℚ) / 100 - q =
      ((roundHalfEven (q * 100) : ℚ) - q * 100) / 100 := by ring
  rw [hrw, abs_div, abs_of_pos h100]
  have h200 : (1/200 : ℚ) = (1/2) / 100 := by norm_num
  rw [h200]
  exact (div_le_div_right h100).mpr h

/-- `Count('votes')` for one option: the number of vote rows targeting it. -/
def optionVoteCount (s : Store) (oid : Nat) : Nat :=
  s.votes.countP (fun w => w.optionId == oid)

/-- One row of the annotated queryset
`options.annotate(vote_count=Count('votes')).values('id', 'text', 'vote_count')`. -/
structure AnnotatedRow where
  id : Nat
  text : String
  vote_count : Nat
deriving DecidableEq

/-- The annotated rows of a poll's options, in table order. -/
def annotatedRows (s : Store) (pid : Nat) : List AnnotatedRow :=
  (s.options.filter (fun o => o.pollId == pid)).map
    (fun o => { id := o.id, text := o.text, vote_count := optionVoteCount s o.id })

/-- SQL `ORDER BY vote_count DESC` as a Boolean comparison.  The explicit
`order_by('-vote_count')` call (models.py 68) replaces the model's default
`Meta` ordering `['order', 'created_at']`, so the query fixes only the
descending count; the relative order of equal-count rows is
database-dependent.  The tie-break key `tk` ranges over the ways the
database could order those ties. -/
def rowLE (tk : Nat → Nat) (a b : AnnotatedRow) : Bool :=
  decide (b.vote_count < a.vote_count) ||
    (a.vote_count == b.vote_count && Nat.ble (tk a.id) (tk b.id))

/-- `rowLE` as a decidable relation for sorting. -/
def rowRel (tk : Nat → Nat) (a b : AnnotatedRow) : Prop := rowLE tk a b = true

instance rowRelDecidable (tk : Nat → Nat) : DecidableRel (rowRel tk) :=
  fun a b => inferInstanceAs (Decidable (rowLE tk a b = true))

theorem rowRel_total (tk : Nat → Nat) : ∀ a b, rowRel tk a b ∨ rowRel tk b a := by
  intro a b
  simp only [rowRel, rowLE, Bool.or_eq_true, Bool.and_eq_true, decide_eq_true_eq,
    beq_iff_eq, Nat.ble_eq]
  omega

theorem rowRel_trans (tk : Nat → Nat) :
    ∀ a b c, rowRel tk a b → rowRel tk b c → rowRel tk a c := by
  intro a b c hab hbc
  simp only [rowRel, rowLE, Bool.or_eq_true, Bool.and_eq_true, decide_eq_true_eq,
    beq_iff_eq, Nat.ble_eq] at hab hbc ⊢
  omega

theorem rowRel_count_ge {tk : Nat → Nat} {a b : AnnotatedRow} (h : rowRel tk a b) :
    b.vote_count ≤ a.vote_count := by
  simp only [rowRel, rowLE, Bool.or_eq_true, Bool.and_eq_true, decide_eq_true_eq,
    beq_iff_eq, Nat.ble_eq] at h
  omega

/-- One output row of `Poll.get_results`: the annotated fields plus the
computed percentage. -/
structure ResultRow where
  id : Nat
  text : String
  vote_count : Nat
  percentage : ℚ
deriving DecidableEq

/-- `round((vote_count / total_votes) * 100, 2)` when the poll has votes,
else `0` (models.py 72-77). -/
def addPercentage (total : Nat) (r : AnnotatedRow) : ResultRow :=
  { id := r.id, text := r.text, vote_count := r.vote_count,
    percentage :=
      if 0 < total then round2 ((r.vote_count : ℚ) / (total : ℚ) * 100) else 0 }

/-- The payload of `Poll.get_results`, restricted to the fields the claims
are about. -/
structure PollResults where
  poll_id : Nat
  total_votes : Nat
  options : List ResultRow
  isExpired : Bool
deriving DecidableEq

/-- `Poll.get_results` (models.py 59-87): annotate the poll's options with
vote counts, order by descending count (equal-count order
database-dependent, via `tk`), total the counts, and attach percentages. -/
def get_results (s : Store) (p : Poll) (now : Nat) (tk : Nat → Nat) : PollResults :=
  let rows := List.insertionSort (rowRel tk) (annotatedRows s p.id)
  let total := (rows.map AnnotatedRow.vote_count).sum
  { poll_id := p.id,
    total_votes := total,
    options := rows.map (addPercentage total),
    isExpired := p.isExpired now }

instance rowRelIsTotal (tk : Nat → Nat) : IsTotal AnnotatedRow (rowRel tk) :=
  ⟨rowRel_total tk⟩

instance rowRelIsTrans (tk : Nat → Nat) : IsTrans AnnotatedRow (rowRel tk) :=
  ⟨fun a b c => rowRel_trans tk a b c⟩

theorem get_results_def (s : Store) (p : Poll) (now : Nat) (tk : Nat → Nat) :
    get_results s p now tk =
      { poll_id := p.id,
        total_votes := ((List.insertionSort (rowRel tk) (annotatedRows s p.id)).map
          AnnotatedRow.vote_count).sum,
        options := (List.insertionSort (rowRel tk) (annotatedRows s p.id)).map
          (addPercentage (((List.insertionSort (rowRel tk) (annotatedRows s p.id)).map
            AnnotatedRow.vote_count).sum)),
        isExpired := p.isExpired now } := rfl

theorem round2_eval_A : round2 (200/3 : ℚ) = 6667/100 := by
  have hfl : ⌊(200/3 : ℚ) * 100⌋ = 6666 := by
    norm_num [Int.floor_eq_iff]
  unfold round2 roundHalfEven
  rw [hfl]
  norm_num

theorem round2_eval_B : round2 (100/3 : ℚ) = 3333/100 := by
  have hfl : ⌊(100/3 : ℚ) * 100⌋ = 3333 := by
    norm_num [Int.floor_eq_iff]
  unfold round2 roundHalfEven
  rw [hfl]
  norm_num

/-- Poll of the C4 result scenario. -/
def c4Poll : Poll :=
  { id := 1, isActive := true, allowMultipleVotes := true, expiresAt := none }

/-- Store of the C4 result scenario: options A (2 votes) and B (1 vote). -/
def c4Store : Store :=
  { polls := [c4Poll],
    options := [{ id := 1, pollId := 1, text := "A", order := 1 },
                { id := 2, pollId := 1, text := "B", order := 2 }],
    votes := [⟨none, 1, "10.0.0.1"⟩, ⟨none, 1, "10.0.0.2"⟩, ⟨none, 2, "10.0.0.3"⟩] }

/-- Expected `get_results` payload for the C4 scenario. -/
def c4Expected : PollResults :=
  { poll_id := 1,
    total_votes := 3,
    options := [{ id := 1, text := "A", vote_count := 2, percentage := 6667/100 },
                { id := 2, text := "B", vote_count := 1, percentage := 3333/100 }],
    isExpired := false }

/-- **C4.** `get_results` returns rows that are a permutation of the poll's
options annotated with the count of persisted votes per option
(`annotatedRows`), a total equal to the sum of those counts, and per-row
percentages `round(count/total × 100, 2)` when any votes exist and `0`
otherwise (`addPercentage`); on the scenario poll with options A (2 votes)
and B (1 vote) it returns total 3 and rows ordered [A at 66.67, B at 33.33]
under every database tie order. -/
theorem get_results_correct (s : Store) (p : Poll) (now : Nat) (tk : Nat → Nat) :
    (∃ rows : List AnnotatedRow,
      rows.Perm (annotatedRows s p.id) ∧
      get_results s p now tk =
        { poll_id := p.id,
          total_votes := (rows.map AnnotatedRow.vote_count).sum,
          options := rows.map (addPercentage ((rows.map AnnotatedRow.vote_count).sum)),
          isExpired := p.isExpired now }) ∧
      get_results c4Store c4Poll now tk = c4Expected := by
  constructor
  · exact ⟨List.insertionSort (rowRel tk) (annotatedRows s p.id),
      List.perm_insertionSort _ _, rfl⟩
  · have hann : annotatedRows c4Store c4Poll.id =
        [⟨1, "A", 2⟩, ⟨2, "B", 1⟩] := by decide
    have hr : rowRel tk ⟨1, "A", 2⟩ ⟨2, "B", 1⟩ := by
      simp [rowRel, rowLE]
    have hsort : List.insertionSort (rowRel tk) (annotatedRows c4Store c4Poll.id) =
        [⟨1, "A", 2⟩, ⟨2, "B", 1⟩] := by
      rw [hann]
      simp [List.insertionSort, List.orderedInsert, hr]
    rw [get_results_def, hsort]
    have hsum : (([⟨1, "A", 2⟩, ⟨2, "B", 1⟩] : List AnnotatedRow).map
        AnnotatedRow.vote_count).sum = 3 := by decide
    rw [hsum]
    norm_num [c4Expected, c4Poll, addPercentage, Poll.isExpired, round2_eval_A, round2_eval_B]

/-- **C6 (amended).** The per-option list returned by `get_results` is
ordered by weakly descending vote count; the relative order of equal-count
options is database-dependent (the explicit `order_by('-vote_count')`
replaces the model's default display ordering) rather than fixed to
ascending display order. -/
theorem get_results_sorted_desc (s : Store) (p : Poll) (now : Nat) (tk : Nat → Nat) :
    ((get_results s p now tk).options.map ResultRow.vote_count).Sorted (· ≥ ·) := by
  rw [get_results_def]
  have hsorted : (List.insertionSort (rowRel tk) (annotatedRows s p.id)).Sorted (rowRel tk) :=
    List.sorted_insertionSort _ _
  show ((List.insertionSort (rowRel tk) (annotatedRows s p.id)).map _ |>.map _).Sorted _
  rw [List.map_map]
  exact List.Pairwise.map _ (fun a b h => rowRel_count_ge h) hsorted

/-- Poll for the C6 tie-order refutation. -/
def c6Poll : Poll :=
  { id := 1, isActive := true, allowMultipleVotes := true, expiresAt := none }

/-- Store for the C6 refutation: options X (display order 1) and Y (display
order 2) with one vote each. -/
def c6Store : Store :=
  { polls := [c6Poll],
    options := [{ id := 1, pollId := 1, text := "X", order := 1 },
                { id := 2, pollId := 1, text := "Y", order := 2 }],
    votes := [⟨none, 1, "10.0.0.1"⟩, ⟨none, 2, "10.0.0.2"⟩] }

/-- A database tie order that lists higher option ids first. -/
def c6TieKey : Nat → Nat := fun n => 10 - n

/-- **C6 counterexample.** With equal vote counts the database may return
the rows in descending display order: under tie order `c6TieKey` the code
returns option 2 (display order 2) before option 1 (display order 1), both
with one vote, so equal-count options do not always appear in ascending
display order. -/
theorem get_results_tie_order_counterexample :
    (get_results c6Store c6Poll 0 c6TieKey).options.map ResultRow.id = [2, 1] ∧
      (get_results c6Store c6Poll 0 c6TieKey).options.map ResultRow.vote_count = [1, 1] ∧
      (findOption c6Store 1).map PollOption.order = some 1 ∧
      (findOption c6Store 2).map PollOption.order = some 2 := by
  refine ⟨by decide, by decide, by decide, by decide⟩

theorem abs_sum_round2_sub (l : List ℚ) :
    |(l.map round2).sum - l.sum| ≤ (l.length : ℚ) / 200 := by
  induction l with
  | nil => simp
  | cons x t ih =>
    simp only [List.map_cons, List.sum_cons, List.length_cons]
    have hx := abs_round2_sub_le x
    have htr : |(round2 x + (List.map round2 t).sum) - (x + t.sum)| ≤
        |round2 x - x| + |(List.map round2 t).sum - t.sum| := by
      have hre : (round2 x + (List.map round2 t).sum) - (x + t.sum) =
          (round2 x - x) + ((List.map round2 t).sum - t.sum) := by ring
      rw [hre]
      exact abs_add _ _
    have hcast : ((t.length + 1 : ℕ) : ℚ) = (t.length : ℚ) + 1 := by push_cast; ring
    rw [hcast]
    calc |(round2 x + (List.map round2 t).sum) - (x + t.sum)| ≤
        |round2 x - x| + |(List.map round2 t).sum - t.sum| := htr
      _ ≤ 1/200 + (t.length : ℚ)/200 := add_le_add hx ih
      _ = ((t.length : ℚ) + 1)/200 := by ring

theorem sum_exact_percentages (rows : List AnnotatedRow) (total : Nat)
    (hsum : (rows.map AnnotatedRow.vote_count).sum = total) (hpos : 0 < total) :
    (rows.map (fun r => (r.vote_count : ℚ) / (total : ℚ) * 100)).sum = 100 := by
  have hT : (total : ℚ) ≠ 0 := Nat.cast_ne_zero.mpr (Nat.pos_iff_ne_zero.mp hpos)
  have h1 : (rows.map (fun r => ((r.vote_count : ℕ) : ℚ))).sum = (total : ℚ) := by
    rw [← hsum, Nat.cast_list_sum, List.map_map]
    rfl
  have h2 : rows.map (fun r => (r.vote_count : ℚ) / (total : ℚ) * 100) =
      rows.map (fun r => ((r.vote_count : ℕ) : ℚ) * (100 / (total : ℚ))) := by
    apply List.map_congr_left
    intro a _
    ring
  rw [h2, List.sum_map_mul_right, h1]
  field_simp

/-- **C5 (amended).** Whenever a poll has votes, the percentages returned
by `get_results` sum to 100 within 1/200 per returned option — in
particular within the claimed ±0.01 only for polls with at most two
options — and every percentage is 0 when there are no votes. -/
theorem get_results_percentage_sum (s : Store) (p : Poll) (now : Nat) (tk : Nat → Nat) :
    (0 < (get_results s p now tk).total_votes →
      |((get_results s p now tk).options.map ResultRow.percentage).sum - 100| ≤
        ((get_results s p now tk).options.length : ℚ) / 200) ∧
    ((get_results s p now tk).total_votes = 0 →
      ∀ r ∈ (get_results s p now tk).options, r.percentage = 0) := by
  rw [get_results_def]
  set rows := List.insertionSort (rowRel tk) (annotatedRows s p.id) with hrows
  set total := (rows.map AnnotatedRow.vote_count).sum with htotal
  constructor
  · intro hpos
    have hpos' : 0 < total := hpos
    show |((rows.map (addPercentage total)).map ResultRow.percentage).sum - 100| ≤
      ((rows.map (addPercentage total)).length : ℚ) / 200
    have hmap : (rows.map (addPercentage total)).map ResultRow.percentage =
        (rows.map (fun r => (r.vote_count : ℚ) / (total : ℚ) * 100)).map round2 := by
      rw [List.map_map, List.map_map]
      apply List.map_congr_left
      intro a _
      simp [addPercentage, hpos']
    rw [hmap]
    have hexact := sum_exact_percentages rows total htotal.symm hpos'
    calc |((rows.map (fun r => (r.vote_count : ℚ) / (total : ℚ) * 100)).map round2).sum - 100|
        = |((rows.map (fun r => (r.vote_count : ℚ) / (total : ℚ) * 100)).map round2).sum -
            (rows.map (fun r => (r.vote_count : ℚ) / (total : ℚ) * 100)).sum| := by
          rw [hexact]
      _ ≤ ((rows.map (fun r => (r.vote_count : ℚ) / (total : ℚ) * 100)).length : ℚ) / 200 :=
          abs_sum_round2_sub _
      _ = ((rows.map (addPercentage total)).length : ℚ) / 200 := by
          simp only [List.length_map]
  · intro h0 r hr
    have h0' : total = 0 := h0
    have hr' : r ∈ rows.map (addPercentage total) := hr
    obtain ⟨a, _, rfl⟩ := List.mem_map.mp hr'
    simp [addPercentage, h0']

theorem get_results_percentage_sum_witness :
    |((get_results c4Store c4Poll 0 (fun n => n)).options.map ResultRow.percentage).sum - 100| ≤
      ((get_results c4Store c4Poll 0 (fun n => n)).options.length : ℚ) / 200 :=
  (get_results_percentage_sum c4Store c4Poll 0 (fun n => n)).1 (by decide)

theorem round2_eval_sevenths : round2 (100/7 : ℚ) = 1429/100 := by
  have hfl : ⌊(100/7 : ℚ) * 100⌋ = 1428 := by
    norm_num [Int.floor_eq_iff]
  unfold round2 roundHalfEven
  rw [hfl]
  norm_num

/-- Poll for the C5 rounding refutation. -/
def c5Poll : Poll :=
  { id := 1, isActive := true, allowMultipleVotes := true, expiresAt := none }

/-- Store for the C5 refutation: seven options with one vote each, so every
percentage rounds 100/7 ≈ 14.2857 up to 14.29. -/
def c5Store : Store :=
  { polls := [c5Poll],
    options := [{ id := 1, pollId := 1, text := "O1", order := 1 },
                { id := 2, pollId := 1, text := "O2", order := 2 },
                { id := 3, pollId := 1, text := "O3", order := 3 },
                { id := 4, pollId := 1, text := "O4", order := 4 },
                { id := 5, pollId := 1, text := "O5", order := 5 },
                { id := 6, pollId := 1, text := "O6", order := 6 },
                { id := 7, pollId := 1, text := "O7", order := 7 }],
    votes := [⟨none, 1, "10.0.0.1"⟩, ⟨none, 2, "10.0.0.2"⟩, ⟨none, 3, "10.0.0.3"⟩,
              ⟨none, 4, "10.0.0.4"⟩, ⟨none, 5, "10.0.0.5"⟩, ⟨none, 6, "10.0.0.6"⟩,
              ⟨none, 7, "10.0.0.7"⟩] }

/-- The annotated rows of the C5 store in stored order. -/
def c5Rows : List AnnotatedRow :=
  [⟨1, "O1", 1⟩, ⟨2, "O2", 1⟩, ⟨3, "O3", 1⟩, ⟨4, "O4", 1⟩, ⟨5, "O5", 1⟩,
   ⟨6, "O6", 1⟩, ⟨7, "O7", 1⟩]

/-- **C5 counterexample.** On a poll with seven options holding one vote
each, the returned percentages are seven copies of 14.29, summing to
100.03: the deviation from 100 is 0.03, outside the claimed ±0.01
tolerance, even though the poll has votes. -/
theorem get_results_sum_counterexample :
    0 < (get_results c5Store c5Poll 0 (fun n => n)).total_votes ∧
      ¬ (|((get_results c5Store c5Poll 0 (fun n => n)).options.map
            ResultRow.percentage).sum - 100| ≤ 1/100) := by
  constructor
  · decide
  · have hsort : List.insertionSort (rowRel (fun n => n)) (annotatedRows c5Store c5Poll.id) =
        c5Rows := by decide
    have hsum : (c5Rows.map AnnotatedRow.vote_count).sum = 7 := by decide
    rw [get_results_def, hsort, hsum]
    norm_num [c5Rows, addPercentage, round2_eval_sevenths]
    rw [show |(3/100 : ℚ)| = 3/100 from abs_of_nonneg (by norm_num)]
    norm_num

/-- Python `str.strip()` on the underlying character list (whitespace at
both ends). -/
def pyStrip (s : String) : String :=
  ⟨(((s.data.dropWhile Char.isWhitespace).reverse).dropWhile Char.isWhitespace).reverse⟩

/-- Python `str.lower()` (the option texts involved are ASCII). -/
def pyLower (s : String) : String :=
  ⟨s.data.map Char.toLower⟩

/-- An option payload of a create-poll request: client-supplied text and
optional explicit display order (the `order` field is writable in
`PollOptionSerializer`, serializers.py 19-22). -/
structure OptionPayload where
  text : String
  order : Option Nat
deriving DecidableEq

/-- `PollCreateSerializer.validate_options` (serializers.py 57-69): at
least 2 options, at most 10, and no duplicates among the stripped,
lowercased texts — Python's `len(texts) != len(set(texts))` is modelled by
comparing with the deduplicated list's length. -/
def validate_options (value : List OptionPayload) : Except String Unit :=
  if value.length < 2 then Except.error "Poll must have at least 2 options."
  else if value.length > 10 then Except.error "Poll cannot have more than 10 options."
  else if (value.map (fun o => pyLower (pyStrip o.text))).dedup.length ≠
      (value.map (fun o => pyLower (pyStrip o.text))).length then
    Except.error "Poll options must be unique."
  else Except.ok ()

theorem dedup_length_eq_iff {α : Type} [DecidableEq α] (l : List α) :
    l.dedup.length = l.length ↔ l.Nodup := by
  constructor
  · intro h
    have hsub := List.dedup_sublist l
    have heq := hsub.eq_of_length h
    rw [← heq]
    exact List.nodup_dedup l
  · intro h
    rw [List.dedup_eq_self.mpr h]

/-- **C7.** `validate_options` accepts exactly the option lists with 2 to
10 entries whose texts are pairwise distinct after stripping surrounding
whitespace and lowercasing — so lists with fewer than 2 options, more than
10, or two texts equal up to case (and surrounding whitespace) are
rejected. -/
theorem validate_options_iff (value : List OptionPayload) :
    validate_options value = Except.ok () ↔
      2 ≤ value.length ∧ value.length ≤ 10 ∧
        (value.map (fun o => pyLower (pyStrip o.text))).Nodup := by
  unfold validate_options
  split_ifs with h1 h2 h3
  · constructor
    · intro hc; cases hc
    · rintro ⟨ha, -, -⟩; omega
  · constructor
    · intro hc; cases hc
    · rintro ⟨-, hb, -⟩; omega
  · constructor
    · intro hc; cases hc
    · rintro ⟨-, -, hnd⟩
      exact h3 ((dedup_length_eq_iff _).mpr hnd)
  · constructor
    · intro _
      refine ⟨by omega, by omega, ?_⟩
      exact (dedup_length_eq_iff _).mp (not_ne_iff.mp h3)
    · intro _
      rfl

/-- `PollOptionSerializer.validate_text` (serializers.py 24-28): at least 2
characters after stripping; the stripped text is what gets stored. -/
def validate_text (value : String) : Except String String :=
  if (pyStrip value).length < 2 then
    Except.error "Option text must be at least 2 characters long."
  else Except.ok (pyStrip value)

/-- `PollCreateSerializer.validate_title` (serializers.py 45-49). -/
def validate_title (value : String) : Except String String :=
  if (pyStrip value).length < 5 then
    Except.error "Poll title must be at least 5 characters long."
  else Except.ok (pyStrip value)

/-- `PollCreateSerializer.validate_expires_at` (serializers.py 51-55):
an expiry at or before the current time is rejected. -/
def validate_expires_at (value : Option Nat) (now : Nat) : Except String (Option Nat) :=
  match value with
  | some e =>
    if e ≤ now then Except.error "Expiration date must be in the future."
    else Except.ok (some e)
  | none => Except.ok none

/-- Outcome of a `createPoll` request: created option rows, a typed
validation rejection, or an untyped exception escaping the serializer (a
crash). -/
inductive CreateOutcome
  | ok (options : List PollOption)
  | rejected (msg : String)
  | crashed (msg : String)
deriving DecidableEq

/-- `PollOption.objects.create(poll=poll, order=i+1, **option_data)`
(serializers.py 76-81): Python passes `order` explicitly and — whenever the
client supplied one — again through `**option_data`, which raises an
untyped `TypeError` for the duplicated keyword argument. -/
def createOption (pid : Nat) (i : Nat) (payload : OptionPayload) :
    Except String PollOption :=
  match payload.order with
  | some _ =>
    Except.error "TypeError: create() got multiple values for keyword argument 'order'"
  | none => Except.ok { id := i + 1, pollId := pid, text := payload.text, order := i + 1 }

/-- The `for i, option_data in enumerate(options_data)` loop of
`PollCreateSerializer.create`. -/
def createOptions (pid : Nat) (i : Nat) : List OptionPayload → Except String (List PollOption)
  | [] => Except.ok []
  | payload :: rest =>
    match createOption pid i payload with
    | Except.error e => Except.error e
    | Except.ok row =>
      match createOptions pid (i + 1) rest with
      | Except.error e => Except.error e
      | Except.ok rows => Except.ok (row :: rows)

/-- The `createPoll` pipeline (`PollCreateSerializer`): field validation of
title, expiry and each option text, then `validate_options`, then `create`
(serializers.py 71-83). -/
def pollCreate (now : Nat) (title : String) (expiresAt : Option Nat)
    (opts : List OptionPayload) : CreateOutcome :=
  match validate_title title with
  | Except.error m => CreateOutcome.rejected m
  | Except.ok _ =>
  match validate_expires_at expiresAt now with
  | Except.error m => CreateOutcome.rejected m
  | Except.ok _ =>
  match opts.mapM (fun o =>
      match validate_text o.text with
      | Except.error m => Except.error m
      | Except.ok t => Except.ok (OptionPayload.mk t o.order)) with
  | Except.error m => CreateOutcome.rejected m
  | Except.ok validated =>
  match validate_options validated with
  | Except.error m => CreateOutcome.rejected m
  | Except.ok _ =>
  match createOptions 1 0 validated with
  | Except.error m => CreateOutcome.crashed m
  | Except.ok rows => CreateOutcome.ok rows

/-- **C8.** Refutation at the repository's own test input
(`PollAPITest.test_create_poll` posts options that carry an explicit
`order`): the request passes every validation step and then crashes inside
`create` — `PollOption.objects.create(poll=poll, order=i+1, **option_data)`
receives the `order` keyword twice and raises an untyped `TypeError`
instead of returning a result or a typed rejection. -/
theorem pollCreate_crashes_on_explicit_order :
    pollCreate 0 "Test Poll" none
        [{ text := "Option 1", order := some 1 }, { text := "Option 2", order := some 2 }] =
      CreateOutcome.crashed
        "TypeError: create() got multiple values for keyword argument 'order'" := by
  decide

/-- The persistence events `polls/signals.py` reacts to: a vote row saved
(`post_save` on `Vote`, with Django's `created` flag), a poll row saved
(`post_save` on `Poll`, creation or update), and a poll about to be
deleted (`pre_delete` on `Poll`). -/
inductive CacheEvent
  | voteSaved (pollId : Nat) (created : Bool)
  | pollSaved (pollId : Nat) (created : Bool)
  | pollPreDelete (pollId : Nat)
deriving DecidableEq

/-- The cache keys each signal receiver passes to `cache.delete_many`
(signals.py 7-49); the vote receiver is guarded by `if created`. -/
def invalidatedKeys : CacheEvent → List String
  | CacheEvent.voteSaved pid created =>
    if created then ["poll_results_" ++ toString pid, "poll_stats", "top_polls"] else []
  | CacheEvent.pollSaved _ _ => ["poll_list", "active_polls", "poll_stats"]
  | CacheEvent.pollPreDelete pid =>
    ["poll_results_" ++ toString pid, "poll_list", "active_polls", "poll_stats", "top_polls"]

/-- **C9.** Cache invalidation fires at exactly the three signal trigger
points with exactly the claimed key sets and touches nothing else: a
committed (newly created) vote for poll P deletes poll_results_P,
poll_stats and top_polls; a poll creation or update deletes poll_list,
active_polls and poll_stats; a poll pre-delete deletes poll_results_P,
poll_list, active_polls, poll_stats and top_polls; a vote re-save with
`created=False` deletes nothing. -/
theorem invalidatedKeys_spec (pid : Nat) (c : Bool) :
    invalidatedKeys (CacheEvent.voteSaved pid true) =
        ["poll_results_" ++ toString pid, "poll_stats", "top_polls"] ∧
      invalidatedKeys (CacheEvent.voteSaved pid false) = [] ∧
      invalidatedKeys (CacheEvent.pollSaved pid c) =
        ["poll_list", "active_polls", "poll_stats"] ∧
      invalidatedKeys (CacheEvent.pollPreDelete pid) =
        ["poll_results_" ++ toString pid, "poll_list", "active_polls", "poll_stats",
          "top_polls"] := by
  refine ⟨rfl, rfl, rfl, rfl⟩
